import Mathlib

/-!
Verification of the nih-plug cross-thread task scheduler
(`src/event_loop/macos.rs`) and of the iced `ParamSlider` widget
(`nih_plug_iced/src/widgets/param_slider.rs`), as shallow embeddings.

The scheduler is modelled with an explicit FIFO-list representation of the
bounded crossbeam channels and an effect trace recording executor
invocations, run-loop source signals and run-loop wake-ups.  Construction
and teardown are modelled as ordered traces of their structural steps.
-/

namespace EventLoopModel

/-- Observable effects performed by the scheduler: an executor invocation
`executor.execute(task, is_main_thread)`, a `CFRunLoopSourceSignal` on the
wake-up source, and a `CFRunLoopWakeUp` of the main run loop. -/
inductive Effect (T : Type) where
  | execute (task : T) (is_main_thread : Bool)
  | signalSource
  | wakeUpMainRunLoop
  deriving DecidableEq, Repr

/-- Non-blocking receive on a crossbeam channel whose pending contents are
the FIFO list `q` (head = oldest): `try_recv` yields the oldest task and the
remaining queue, or `none` when the queue is empty. -/
def try_recv {T : Type} : List T → Option (T × List T)
  | [] => none
  | t :: ts => some (t, ts)

/-- Non-blocking send on a bounded crossbeam channel of capacity `cap`:
`try_send` appends the task at the back when the queue is below capacity and
fails (returning `none`) when the queue is full. -/
def try_send {T : Type} (cap : Nat) (q : List T) (task : T) : Option (List T) :=
  if q.length < cap then some (q ++ [task]) else none

/-- `MacOSEventLoop::schedule_gui` (macos.rs lines 86-102).  `is_main` is the
result of the `is_main_thread()` query (an external thread-identity
primitive, macos.rs lines 108-110); `q` is the pending contents of the
bounded main-thread channel of capacity `cap` (`TASK_QUEUE_CAPACITY`, a
constant of the parent module, kept as a parameter).  Returns the boolean
result, the new queue contents, and the effects performed in order. -/
def schedule_gui {T : Type} (cap : Nat) (is_main : Bool) (q : List T)
    (task : T) : Bool × List T × List (Effect T) :=
  if is_main then
    (true, q, [Effect.execute task true])
  else
    match try_send cap q task with
    | some q2 => (true, q2, [Effect.signalSource, Effect.wakeUpMainRunLoop])
    | none => (false, q, [])

/-- `loop_source_callback` (macos.rs lines 126-137): while `try_recv`
succeeds, invoke the executor on the received task with the main-thread flag
set.  Returns the effects performed in order and the final queue contents.
The structural recursion on the list is exactly the `while let
Ok(task) = receiver.try_recv()` loop: `try_recv` fails precisely on the
empty queue and otherwise pops the head. -/
def loop_source_callback {T : Type} : List T → List (Effect T) × List T
  | [] => ([], [])
  | t :: ts =>
    let rest := loop_source_callback ts
    (Effect.execute t true :: rest.1, rest.2)

/-- Sanity lemma: `loop_source_callback` is the `try_recv`-driven loop. -/
lemma loop_source_callback_eq_try_recv {T : Type} (q : List T) :
    loop_source_callback q =
      match try_recv q with
      | none => ([], q)
      | some (t, ts) =>
        let rest := loop_source_callback ts
        (Effect.execute t true :: rest.1, rest.2) := by
  cases q <;> rfl

/-- The effect trace of the drain callback executes every queued task, in
FIFO order, with the main-thread flag set. -/
lemma loop_source_callback_effects {T : Type} (q : List T) :
    (loop_source_callback q).1 = q.map (fun t => Effect.execute t true) := by
  induction q with
  | nil => rfl
  | cons t ts ih => simp [loop_source_callback, ih]

/-- The drain callback stops exactly when the queue reports empty. -/
lemma loop_source_callback_final {T : Type} (q : List T) :
    (loop_source_callback q).2 = [] := by
  induction q with
  | nil => rfl
  | cons t ts ih => simp [loop_source_callback, ih]

/-- Modelled from the spec: `BackgroundThread::schedule`, the shared
background worker of the parent `event_loop` module, which is not among the
provided sources — "non-blocking enqueue; true on success, false if the
queue is full".  `q` is the worker's own bounded queue of capacity `cap`. -/
def BackgroundThread.schedule {T : Type} (cap : Nat) (q : List T) (task : T) :
    Bool × List T :=
  match try_send cap q task with
  | some q2 => (true, q2)
  | none => (false, q)

/-- `MacOSEventLoop::schedule_background` (macos.rs lines 104-106):
delegates to `BackgroundThread::schedule`. -/
def schedule_background {T : Type} (cap : Nat) (q : List T) (task : T) :
    Bool × List T :=
  BackgroundThread.schedule cap q task

/-- The structural steps of `MacOSEventLoop::new_and_spawn` (macos.rs lines
49-84).  `addr` abstracts the address of the boxed `thread_data`; the
run-loop source context's `info` pointer records which address the
registration references. -/
inductive ConstructionStep where
  | createMainThreadChannel
  | boxThreadData (addr : Nat)
  | createLoopSource (info : Nat)
  | addLoopSourceToMainRunLoop
  | spawnBackgroundThread
  deriving DecidableEq, Repr

/-- Predicate picking out the native wake-up source creation step. -/
def is_create_loop_source : ConstructionStep → Bool
  | ConstructionStep.createLoopSource _ => true
  | _ => false

/-- The ordered trace of structural operations performed by
`MacOSEventLoop::new_and_spawn` (macos.rs lines 49-84): create the bounded
channel (line 50), box the `(executor, receiver)` pair (line 52), create the
run-loop source with `info` pointing at the boxed data (lines 56-73), add it
to the main run loop (line 74), then evaluate the struct literal, whose
`background_thread` field spawns the worker (line 79). -/
def new_and_spawn_steps (addr : Nat) : List ConstructionStep :=
  [ConstructionStep.createMainThreadChannel,
   ConstructionStep.boxThreadData addr,
   ConstructionStep.createLoopSource addr,
   ConstructionStep.addLoopSourceToMainRunLoop,
   ConstructionStep.spawnBackgroundThread]

/-- The fields `MacOSEventLoop::new_and_spawn` stores that are relevant to
registration: the handle returned by the external `CFRunLoopSourceCreate`
(modelled as `Option Nat`, `none` standing for a null handle on creation
failure) and the address of the boxed callback state. -/
structure ConstructedEventLoop where
  loop_source : Option Nat
  thread_data_addr : Nat
  deriving DecidableEq, Repr

/-- `MacOSEventLoop::new_and_spawn` (macos.rs lines 49-84) viewed as a
fallible constructor: a `none` result would represent a propagated
construction failure.  The source never branches on the result of
`CFRunLoopSourceCreate`: it stores whatever handle was returned (line 80)
and always completes, so the embedding returns `some` unconditionally. -/
def new_and_spawn (create_result : Option Nat) (addr : Nat) :
    Option ConstructedEventLoop :=
  some { loop_source := create_result, thread_data_addr := addr }

/-- The structural steps of teardown. -/
inductive TeardownStep where
  | removeLoopSourceFromMainRunLoop
  | invalidateLoopSource
  | dropExecutorField
  | dropBackgroundThreadField
  | dropLoopSourceField
  | dropMainThreadSenderField
  | freeThreadData
  deriving DecidableEq, Repr

/-- The ordered teardown trace of `MacOSEventLoop`: the `Drop`
implementation (macos.rs lines 113-124) first removes the source from the
main run loop and invalidates it; Rust then drops the struct fields in
declaration order (macos.rs lines 23-42): `executor`, `background_thread`,
`loop_source`, `main_thread_sender`, and finally `_thread_data`, which frees
the boxed `(executor, receiver)` pair captured by the native callback. -/
def drop_steps : List TeardownStep :=
  [TeardownStep.removeLoopSourceFromMainRunLoop,
   TeardownStep.invalidateLoopSource,
   TeardownStep.dropExecutorField,
   TeardownStep.dropBackgroundThreadField,
   TeardownStep.dropLoopSourceField,
   TeardownStep.dropMainThreadSenderField,
   TeardownStep.freeThreadData]

/-- Claim C1: `schedule_gui` called on the main thread invokes the executor
synchronously with the main-thread flag set, returns `true` unconditionally,
leaves the main-thread queue untouched, and performs no signal or wake. -/
theorem schedule_gui_main_thread_direct {T : Type} (cap : Nat) (q : List T)
    (task : T) :
    schedule_gui cap true q task = (true, q, [Effect.execute task true]) :=
  rfl

/-- Claim C2: `schedule_gui` from a non-main thread with the queue at
capacity returns `false`, leaves the queue unchanged (the task is neither
enqueued nor delivered), and performs no effect at all — no signal, no
run-loop wake, no executor invocation. -/
theorem schedule_gui_full_drops {T : Type} (cap : Nat) (q : List T)
    (task : T) (h : cap ≤ q.length) :
    schedule_gui cap false q task = (false, q, []) := by
  simp [schedule_gui, try_send, Nat.not_lt.mpr h]

/-- Witness for claim C2 at capacity 2 with a saturated queue. -/
theorem schedule_gui_full_drops_witness :
    2 ≤ [10, 20].length ∧
      schedule_gui 2 false [10, 20] (30 : Nat) = (false, [10, 20], []) :=
  ⟨by decide, schedule_gui_full_drops 2 [10, 20] 30 (by decide)⟩

/-- Claim C3: `schedule_gui` from a non-main thread with spare capacity
appends the task to the queue, signals the wake-up source, wakes the main
run loop, and returns `true`; and draining the resulting queue invokes the
executor with the main-thread flag set exactly one more time for that task
than draining the previous queue would have. -/
theorem schedule_gui_spare_capacity {T : Type} [DecidableEq T] (cap : Nat)
    (q : List T) (task : T) (h : q.length < cap) :
    schedule_gui cap false q task =
        (true, q ++ [task],
          [Effect.signalSource, Effect.wakeUpMainRunLoop]) ∧
      (loop_source_callback (q ++ [task])).1.count
          (Effect.execute task true) =
        (loop_source_callback q).1.count (Effect.execute task true) + 1 := by
  refine ⟨by simp [schedule_gui, try_send, h], ?_⟩
  simp [loop_source_callback_effects]

/-- Witness for claim C3 at capacity 2 with one queued task. -/
theorem schedule_gui_spare_capacity_witness :
    [(5 : Nat)].length < 2 ∧
      (schedule_gui 2 false [(5 : Nat)] 7 =
          (true, [5] ++ [7],
            [Effect.signalSource, Effect.wakeUpMainRunLoop]) ∧
        (loop_source_callback ([(5 : Nat)] ++ [7])).1.count
            (Effect.execute 7 true) =
          (loop_source_callback [(5 : Nat)]).1.count
            (Effect.execute 7 true) + 1) :=
  ⟨by decide, schedule_gui_spare_capacity 2 [5] 7 (by decide)⟩

/-- Claim C4: the drain callback executes every queued task, in FIFO order,
with the main-thread flag set, and returns with the queue reported empty; on
an empty queue it performs no executor invocation at all.  The function is
structurally recursive on the queue, so it returns without blocking for
every queue state. -/
theorem loop_source_callback_drains {T : Type} (q : List T) :
    (loop_source_callback q).1 = q.map (fun t => Effect.execute t true) ∧
      (loop_source_callback q).2 = [] ∧
      loop_source_callback ([] : List T) = ([], []) :=
  ⟨loop_source_callback_effects q, loop_source_callback_final q, rfl⟩

/-- Claim C5 counterexample: when `CFRunLoopSourceCreate` fails (a null
handle, modelled as `none`), construction does not propagate a failure: it
completes and stores the invalid handle. -/
theorem new_and_spawn_no_failure_check :
    new_and_spawn none 0 ≠ none ∧
      new_and_spawn none 0 =
        some { loop_source := none, thread_data_addr := 0 } :=
  ⟨by decide, rfl⟩

/-- Claim C5 (amended): construction never checks the result of creating the
native wake-up source; for every creation result it completes, storing that
result — valid or not — as the loop-source handle. -/
theorem new_and_spawn_unchecked (create_result : Option Nat) (addr : Nat) :
    new_and_spawn create_result addr =
      some { loop_source := create_result, thread_data_addr := addr } :=
  rfl

/-- Claim C6: construction creates exactly one native wake-up registration;
teardown removes it from the run loop and invalidates it exactly once each,
with removal before invalidation and invalidation strictly before the
callback-captured boxed `(executor, receiver)` state is freed. -/
theorem construction_teardown_lifecycle (addr : Nat) :
    (new_and_spawn_steps addr).countP is_create_loop_source = 1 ∧
      drop_steps.count TeardownStep.invalidateLoopSource = 1 ∧
      drop_steps.count TeardownStep.removeLoopSourceFromMainRunLoop = 1 ∧
      drop_steps.indexOf TeardownStep.removeLoopSourceFromMainRunLoop <
        drop_steps.indexOf TeardownStep.invalidateLoopSource ∧
      drop_steps.indexOf TeardownStep.invalidateLoopSource <
        drop_steps.indexOf TeardownStep.freeThreadData :=
  ⟨rfl, by decide, by decide, by decide, by decide⟩

/-- Claim C7: construction performs, in order: create the bounded channel,
box the callback-captured state, create the native wake-up source
referencing that state's address (the same `addr`), add it to the main run
loop, and spawn the background worker. -/
theorem construction_order (addr : Nat) :
    new_and_spawn_steps addr =
      [ConstructionStep.createMainThreadChannel,
       ConstructionStep.boxThreadData addr,
       ConstructionStep.createLoopSource addr,
       ConstructionStep.addLoopSourceToMainRunLoop,
       ConstructionStep.spawnBackgroundThread] :=
  rfl

/-- Claim C8: `schedule_background` performs a non-blocking enqueue into the
bounded background queue: it appends the task and returns `true` when the
queue is below capacity, and returns `false` leaving the queue unchanged
when it is full; being a total function of the queue state, it never
blocks the producer. -/
theorem schedule_background_nonblocking {T : Type} (cap : Nat) (q : List T)
    (task : T) :
    schedule_background cap q task =
      if q.length < cap then (true, q ++ [task]) else (false, q) := by
  by_cases h : q.length < cap <;>
    simp [schedule_background, BackgroundThread.schedule, try_send, h]

end EventLoopModel

namespace ParamSliderModel

/-- Keyboard modifier state (`keyboard::Modifiers`), reduced to the two
predicates the slider queries: the platform command predicate
(`Modifiers::command()`) and the shift key (`Modifiers::shift()`). -/
structure Modifiers where
  command : Bool
  shift : Bool
  deriving DecidableEq, Repr

/-- `mouse::click::Kind` from iced. -/
inductive ClickKind where
  | single
  | double
  | triple
  deriving DecidableEq, Repr

/-- The `matches!(click.kind(), mouse::click::Kind::Double)` test
(param_slider.rs line 132). -/
def is_double : ClickKind → Bool
  | ClickKind.double => true
  | _ => false

/-- `ParamSlider` widget `State` (param_slider.rs lines 36-47).  `X` is the
pixel-coordinate type (`f32` in the source), kept abstract.  `last_click`
stores the kind of the last click; the position and timing data the source
stores in `mouse::Click` is consumed only by the external
`mouse::Click::new`, whose result is supplied with each press event. -/
structure State (X : Type) where
  keyboard_modifiers : Modifiers
  drag_active : Bool
  granular_drag_start_x : Option X
  last_click : Option ClickKind
  ignore_changes : Bool
  deriving DecidableEq, Repr

/-- The parameter and setter data the slider reads: `Param::preview_plain`,
`Param::plain_value`, `Param::normalized_value`, `Param::as_ptr` (an opaque
identifier), and `ParamSetter::default_normalized_param_value`.  `N` is the
normalized-value type (`f32` in the source), `Pl` the plain-value type. -/
structure Param (N Pl : Type) where
  preview_plain : N → Pl
  plain_value : Pl
  normalized_value : N
  default_normalized_value : N
  as_ptr : Nat

/-- The `ParamMessage` variants the slider publishes to the shell. -/
inductive ParamMessage (N : Type) where
  | BeginSetParameter (ptr : Nat)
  | SetParameterNormalized (ptr : Nat) (normalized : N)
  | EndSetParameter (ptr : Nat)
  deriving DecidableEq, Repr

/-- `event::Status` returned by `on_event`. -/
inductive Status where
  | ignored
  | captured
  deriving DecidableEq, Repr

/-- The geometric computations `on_event` delegates to the `util` module and
to arithmetic on coordinates, kept abstract since the widget's geometry is
out of scope: `remap_rect_x_coordinate bounds x`, `remap_rect_x_t bounds t`
(with the bounds fixed), and the granular-drag target
`drag_start_x + (cursor_x - drag_start_x) * GRANULAR_DRAG_MULTIPLIER`
(param_slider.rs lines 190-191). -/
structure Geometry (N X : Type) where
  remap_rect_x_coordinate : X → N
  remap_rect_x_t : N → X
  granular_drag_target : X → X → X

/-- `ParamSlider::set_normalized_value` (param_slider.rs lines 327-341):
previews the plain value for `normalized_value` and publishes
`SetParameterNormalized` only when it differs from the parameter's current
plain value.  Returns the list of messages published to the shell; the
widget state is not touched. -/
def set_normalized_value {N Pl : Type} [DecidableEq Pl] (param : Param N Pl)
    (normalized_value : N) : List (ParamMessage N) :=
  let plain_value := param.preview_plain normalized_value
  let current_plain_value := param.plain_value
  if plain_value ≠ current_plain_value then
    [ParamMessage.SetParameterNormalized param.as_ptr normalized_value]
  else
    []

/-- One input to `ParamSlider::on_event` (param_slider.rs lines 110-213),
with the externally computed data resolved per event: `in_bounds` is
`bounds.contains(cursor_position)` and `click_kind` is the kind of
`mouse::Click::new(cursor_position, last_click)`.  Mouse and touch variants
that take the same branch in the source `match` are merged, as there. -/
inductive WidgetEvent (X : Type) where
  | buttonPressed (in_bounds : Bool) (click_kind : ClickKind) (cursor_x : X)
  | buttonReleased (in_bounds : Bool)
  | cursorMoved (in_bounds : Bool) (cursor_x : X)
  | modifiersChanged (modifiers : Modifiers)
  | other

/-- `ParamSlider::on_event` (param_slider.rs lines 110-213).  Returns the
new widget state, the messages published to the shell in order, and the
event status. -/
def on_event {N Pl X : Type} [DecidableEq Pl] (geometry : Geometry N X)
    (param : Param N Pl) (st : State X) (ev : WidgetEvent X) :
    State X × List (ParamMessage N) × Status :=
  match ev with
  | WidgetEvent.buttonPressed in_bounds click_kind cursor_x =>
    if in_bounds then
      let st1 : State X :=
        { st with drag_active := true, last_click := some click_kind }
      if st1.keyboard_modifiers.command || is_double click_kind then
        ({ st1 with ignore_changes := true },
         ParamMessage.BeginSetParameter param.as_ptr ::
           set_normalized_value param param.default_normalized_value,
         Status.captured)
      else if st1.keyboard_modifiers.shift then
        ({ st1 with
            granular_drag_start_x :=
              some (geometry.remap_rect_x_t param.normalized_value),
            ignore_changes := false },
         [ParamMessage.BeginSetParameter param.as_ptr], Status.captured)
      else
        ({ st1 with granular_drag_start_x := none, ignore_changes := false },
         ParamMessage.BeginSetParameter param.as_ptr ::
           set_normalized_value param
             (geometry.remap_rect_x_coordinate cursor_x),
         Status.captured)
    else (st, [], Status.ignored)
  | WidgetEvent.buttonReleased in_bounds =>
    if in_bounds then
      ({ st with drag_active := false },
       [ParamMessage.EndSetParameter param.as_ptr], Status.captured)
    else (st, [], Status.ignored)
  | WidgetEvent.cursorMoved in_bounds cursor_x =>
    if !st.ignore_changes && st.drag_active && in_bounds then
      if st.keyboard_modifiers.shift then
        let drag_start_x := st.granular_drag_start_x.getD cursor_x
        ({ st with granular_drag_start_x := some drag_start_x },
         set_normalized_value param
           (geometry.remap_rect_x_coordinate
             (geometry.granular_drag_target drag_start_x cursor_x)),
         Status.captured)
      else
        ({ st with granular_drag_start_x := none },
         set_normalized_value param
           (geometry.remap_rect_x_coordinate cursor_x),
         Status.captured)
    else (st, [], Status.ignored)
  | WidgetEvent.modifiersChanged modifiers =>
    ({ st with keyboard_modifiers := modifiers }, [], Status.ignored)
  | WidgetEvent.other => (st, [], Status.ignored)

/-- Claim C9: `set_normalized_value` publishes a `SetParameterNormalized`
message exactly when the previewed plain value differs from the parameter's
current plain value, and publishes nothing (leaving the shell unchanged)
when the two plain values are equal; the widget state is not an input or
output of the function, so it is unchanged in either case. -/
theorem set_normalized_value_publishes_iff {N Pl : Type} [DecidableEq Pl]
    (param : Param N Pl) (nv : N) :
    set_normalized_value param nv =
      if param.preview_plain nv = param.plain_value then []
      else [ParamMessage.SetParameterNormalized param.as_ptr nv] := by
  by_cases h : param.preview_plain nv = param.plain_value <;>
    simp [set_normalized_value, h]

end ParamSliderModel

namespace ParamSliderModel

/-- Claim C10: (1) a reset gesture — a left press inside the bounds with the
command modifier held or recognized as a double click — sets
`ignore_changes`; (2) while `ignore_changes` is set, every cursor-moved or
finger-moved event publishes no message at all; (3) `ignore_changes` can
only transition from set to cleared through a button-press event inside the
bounds that is not a reset gesture. -/
theorem ignore_changes_invariant {N Pl X : Type} [DecidableEq Pl]
    (geometry : Geometry N X) (param : Param N Pl) (st : State X) :
    (∀ (ck : ClickKind) (cx : X),
        (st.keyboard_modifiers.command || is_double ck) = true →
          ((on_event geometry param st
              (WidgetEvent.buttonPressed true ck cx)).1).ignore_changes =
            true) ∧
      (∀ (ib : Bool) (cx : X), st.ignore_changes = true →
          (on_event geometry param st
            (WidgetEvent.cursorMoved ib cx)).2.1 = []) ∧
      (∀ ev : WidgetEvent X, st.ignore_changes = true →
          ((on_event geometry param st ev).1).ignore_changes = false →
            ∃ ck cx, ev = WidgetEvent.buttonPressed true ck cx ∧
              (st.keyboard_modifiers.command || is_double ck) = false) := by
  refine ⟨?_, ?_, ?_⟩
  · intro ck cx h
    simp [on_event, h]
  · intro ib cx h
    simp [on_event, h]
  · intro ev h hclear
    cases ev with
    | buttonPressed ib ck cx =>
      cases ib with
      | false => simp [on_event, h] at hclear
      | true =>
        by_cases hg : (st.keyboard_modifiers.command || is_double ck) = true
        · simp [on_event, hg] at hclear
        · exact ⟨ck, cx, rfl, by simpa using hg⟩
    | buttonReleased ib =>
      cases ib <;> simp [on_event, h] at hclear
    | cursorMoved ib cx =>
      simp [on_event, h] at hclear
    | modifiersChanged m =>
      simp [on_event, h] at hclear
    | other =>
      simp [on_event, h] at hclear

/-- Concrete geometry over natural-number coordinates, for witnesses. -/
def geom0 : Geometry Nat Nat :=
  { remap_rect_x_coordinate := fun x => x,
    remap_rect_x_t := fun n => n,
    granular_drag_target := fun s c => s + c }

/-- Concrete parameter over natural numbers, for witnesses. -/
def param0 : Param Nat Nat :=
  { preview_plain := fun n => n,
    plain_value := 0,
    normalized_value := 0,
    default_normalized_value := 1,
    as_ptr := 42 }

/-- Concrete widget state with `ignore_changes` set, for witnesses. -/
def st0 : State Nat :=
  { keyboard_modifiers := { command := false, shift := false },
    drag_active := true,
    granular_drag_start_x := none,
    last_click := none,
    ignore_changes := true }

/-- Witness for claim C10 at concrete inputs: a double click sets the flag,
a cursor move with the flag set publishes nothing, and a plain single click
inside the bounds is the non-reset press that clears it. -/
theorem ignore_changes_invariant_witness :
    ((on_event geom0 param0 st0
        (WidgetEvent.buttonPressed true ClickKind.double 3)).1).ignore_changes =
        true ∧
      (on_event geom0 param0 st0 (WidgetEvent.cursorMoved true 3)).2.1 = [] ∧
      (∃ ck cx,
        WidgetEvent.buttonPressed true ClickKind.single 3 =
            WidgetEvent.buttonPressed true ck cx ∧
          (st0.keyboard_modifiers.command || is_double ck) = false) := by
  refine ⟨?_, ?_, ?_⟩
  · exact (ignore_changes_invariant geom0 param0 st0).1 ClickKind.double 3
      (by decide)
  · exact (ignore_changes_invariant geom0 param0 st0).2.1 true 3 (by decide)
  · exact (ignore_changes_invariant geom0 param0 st0).2.2
      (WidgetEvent.buttonPressed true ClickKind.single 3) (by decide)
      (by decide)

end ParamSliderModel
